import Mathlib

/-!
Shallow embedding of the conversation core of the WhatsApp
loan-against-property agent: the conversation state machine
(`core/conversation.py`), the profile merge (`agent/views.py`,
`update_customer_profile`), the currency normalizer, the intent
normalizer, and the messaging client's window/rate-limit logic
(`core/whatsapp.py`).

Python dict values are modelled by the inductive `Val`; Python dicts by
insertion-ordered association lists with `setKey` (replace in place,
append fresh keys at the end) and `List.lookup`.  Python floats are
modelled by rationals, since all the operations involved are additions,
subtractions and clamping by `min`/`max`.
-/

namespace LoanAgent

/-- A JSON-ish value, as stored in the customer profile dictionaries. -/
inductive Val : Type where
  | vnull : Val
  | vstr : String → Val
  | vnum : ℚ → Val
  | vbool : Bool → Val
  | vlist : List Val → Val

/-- Python dict truthiness for `Val` (used by the do_not_contact flag). -/
def Val.truthy : Val → Bool
  | .vnull => false
  | .vstr s => s != ""
  | .vnum q => if q = 0 then false else true
  | .vbool b => b
  | .vlist l => !l.isEmpty

/-- `d[k] = v` on an insertion-ordered association list: replace the first
occurrence of `k` in place, append `(k, v)` at the end when absent. -/
def setKey {β : Type} : List (String × β) → String → β → List (String × β)
  | [], k, v => [(k, v)]
  | (k0, v0) :: rest, k, v =>
      if k0 = k then (k0, v) :: rest else (k0, v0) :: setKey rest k v

/-- `d.get(k)` on an association list. -/
def getKey {β : Type} : List (String × β) → String → Option β
  | [], _ => none
  | (k0, v0) :: rest, k => if k0 = k then some v0 else getKey rest k

/-- States of the conversation finite-state machine
(`ConversationEngine.State`). -/
def allStates : List String :=
  ["initial", "introduction", "qualifying", "property_details",
   "loan_details", "objection_handling", "closing",
   "follow_up_scheduling", "completed", "not_interested"]

/-- The eight non-terminal states, in funnel order. -/
def nonTerminalStates : List String :=
  ["initial", "introduction", "qualifying", "property_details",
   "loan_details", "objection_handling", "closing", "follow_up_scheduling"]

/-- Customer intents (`ConversationEngine.Intent`). -/
def allIntents : List String :=
  ["interested", "needs_more_info", "objection", "not_interested",
   "asking_question", "follow_up_later"]

/-- The static transition table `ConversationEngine.state_transitions`,
transcribed entry by entry from `core/conversation.py`. -/
def state_transitions : List (String × List (String × String)) :=
  [ ("initial",
      [("interested", "introduction"),
       ("needs_more_info", "introduction"),
       ("not_interested", "not_interested"),
       ("asking_question", "introduction")]),
    ("introduction",
      [("interested", "qualifying"),
       ("needs_more_info", "qualifying"),
       ("objection", "objection_handling"),
       ("not_interested", "not_interested"),
       ("asking_question", "qualifying")]),
    ("qualifying",
      [("interested", "property_details"),
       ("needs_more_info", "qualifying"),
       ("objection", "objection_handling"),
       ("not_interested", "not_interested"),
       ("asking_question", "qualifying"),
       ("follow_up_later", "follow_up_scheduling")]),
    ("property_details",
      [("interested", "loan_details"),
       ("needs_more_info", "property_details"),
       ("objection", "objection_handling"),
       ("not_interested", "not_interested"),
       ("asking_question", "property_details"),
       ("follow_up_later", "follow_up_scheduling")]),
    ("loan_details",
      [("interested", "closing"),
       ("needs_more_info", "loan_details"),
       ("objection", "objection_handling"),
       ("not_interested", "not_interested"),
       ("asking_question", "loan_details"),
       ("follow_up_later", "follow_up_scheduling")]),
    ("objection_handling",
      [("interested", "loan_details"),
       ("needs_more_info", "loan_details"),
       ("objection", "objection_handling"),
       ("not_interested", "not_interested"),
       ("asking_question", "loan_details"),
       ("follow_up_later", "follow_up_scheduling")]),
    ("closing",
      [("interested", "completed"),
       ("needs_more_info", "loan_details"),
       ("objection", "objection_handling"),
       ("not_interested", "not_interested"),
       ("asking_question", "loan_details"),
       ("follow_up_later", "follow_up_scheduling")]),
    ("follow_up_scheduling",
      [("interested", "loan_details"),
       ("needs_more_info", "loan_details"),
       ("not_interested", "not_interested")]),
    ("completed", []),
    ("not_interested",
      [("interested", "introduction")]) ]

/-- `self.state_transitions.get(current_state, {})`. -/
def transitionsFor (current_state : String) : List (String × String) :=
  (getKey state_transitions current_state).getD []

/-- `ConversationEngine._update_state`: follow the table entry for
`(current_state, intent)` when present, otherwise stay. -/
def updateState (current_state intent : String) : String :=
  match getKey (transitionsFor current_state) intent with
  | some next => next
  | none => current_state

/-! ## String helpers (Python `str.strip`, `str.lower`, substring test) -/

/-- Python `str.strip()` on a character list. -/
def stripChars (l : List Char) : List Char :=
  ((l.dropWhile Char.isWhitespace).reverse.dropWhile Char.isWhitespace).reverse

/-- Does `haystack` start with `needle`? -/
def startsWithList : List Char → List Char → Bool
  | [], _ => true
  | _ :: _, [] => false
  | a :: as, b :: bs => a == b && startsWithList as bs

/-- Python `needle in haystack` substring containment. -/
def containsSub (needle haystack : List Char) : Bool :=
  match haystack with
  | [] => needle.isEmpty
  | _ :: rest => startsWithList needle haystack || containsSub needle rest

/-- Substring containment at `String` level. -/
def strContains (needle haystack : String) : Bool :=
  containsSub needle.toList haystack.toList

/-! ## `ConversationEngine._convert_indian_currency_to_number` -/

/-- Decimal digits to a natural number. -/
def digitsToNat (l : List Char) : ℕ :=
  l.foldl (fun acc c => acc * 10 + (c.toNat - 48)) 0

/-- `re.search(r'(\d+\.?\d*)', s)`: the digits of the first numeric token,
split into integer part and fractional part (empty when there is no dot),
or `none` when the string holds no digit. -/
def findToken : List Char → Option (List Char × List Char)
  | [] => none
  | c :: rest =>
      if c.isDigit then
        let ip := (c :: rest).takeWhile Char.isDigit
        match (c :: rest).dropWhile Char.isDigit with
        | '.' :: fp0 => some (ip, fp0.takeWhile Char.isDigit)
        | _ => some (ip, [])
      else findToken rest

/-- `float(...)` applied to the matched token `ip [. fp]`. -/
def tokenValue (t : List Char × List Char) : ℚ :=
  (digitsToNat t.1 : ℚ) + (digitsToNat t.2 : ℚ) / ((10 : ℚ) ^ t.2.length)

/-- The body of `_convert_indian_currency_to_number` after lowering and
stripping: find the first numeric token (no token → 0), then scale it by
the first recognized multiplier substring. -/
def convertChars (v : List Char) : ℚ :=
  match findToken v with
  | none => 0
  | some t =>
      if containsSub "lakh".toList v || containsSub "lac".toList v then
        tokenValue t * 100000
      else if containsSub "crore".toList v || containsSub "cr".toList v then
        tokenValue t * 10000000
      else if containsSub "k".toList v || containsSub "thousand".toList v then
        tokenValue t * 1000
      else tokenValue t

/-- `ConversationEngine._convert_indian_currency_to_number`:
`value_str.lower().strip()` followed by `convertChars`. -/
def convertIndianCurrencyToNumber (s : String) : ℚ :=
  convertChars (stripChars (s.toList.map Char.toLower))

/-! ## `ConversationEngine.detect_intent` -/

/-- The intent-normalization chain of `detect_intent`, applied to the
already stripped and lowercased classifier output. -/
def normalizeIntent (intent : String) : String :=
  if intent ∈ allIntents then intent
  else if strContains "interest" intent then "interested"
  else if strContains "more info" intent || strContains "information" intent then
    "needs_more_info"
  else if strContains "object" intent || strContains "concern" intent then
    "objection"
  else if strContains "not" intent &&
          (strContains "interest" intent || strContains "want" intent) then
    "not_interested"
  else if strContains "question" intent || strContains "ask" intent then
    "asking_question"
  else if strContains "follow" intent || strContains "later" intent then
    "follow_up_later"
  else "needs_more_info"

/-- Outcome of the chat-completion call made by `detect_intent`:
the reply text and its finish reason. -/
structure ClassifierReply where
  content : String
  finishReason : String

/-- `ConversationEngine.detect_intent`, as a function of the outcome of
the classifier call (`Except.error` models a raised exception): on
success, strip/lowercase and normalize the reply and score confidence
0.7 (+0.1 when the finish reason is "stop"); on any exception, return
`("needs_more_info", 0.5)`. -/
def detect_intent (result : Except String ClassifierReply) : String × ℚ :=
  match result with
  | .error _ => ("needs_more_info", 1/2)
  | .ok r =>
      let intent := normalizeIntent (String.mk ((stripChars r.content.toList).map Char.toLower))
      let confidence : ℚ := if r.finishReason = "stop" then 7/10 + 1/10 else 7/10
      (intent, confidence)

/-! ## Customer record and `update_customer_profile` (`agent/views.py`) -/

/-- The fields of the `Customer` row touched by `update_customer_profile`. -/
structure Customer where
  name : Option Val
  property_details : List (String × Val)
  loan_requirements : List (String × Val)
  conversation_state : String
  interest_level : ℚ
  do_not_contact : Bool

/-- Keys routed into `customer.property_details`. -/
def propertyKeys : List String :=
  ["property_type", "property_location", "property_value", "ownership_status"]

/-- Keys routed into `customer.loan_requirements`. -/
def loanKeys : List String :=
  ["loan_amount_needed", "loan_purpose", "current_loans", "monthly_income", "urgency"]

/-- The stored `loan_requirements["concerns"]` list (defaulting to `[]`
when the key is absent, as the code inserts `[]` before appending).
A stored non-list value would make the Python code raise; such records
are excluded by the well-formedness predicate below. -/
def getConcernsList (m : List (String × Val)) : List Val :=
  match getKey m "concerns" with
  | some (.vlist l) => l
  | some _ => []
  | none => []

/-- `loan_requirements["concerns"]` is absent or holds a list, so that
`extend`/`append` in the source cannot raise. -/
def concernsWellFormed (m : List (String × Val)) : Prop :=
  (getKey m "concerns" = none) ∨ (∃ l, getKey m "concerns" = some (.vlist l))

/-- `extend` for a list value, `append` for a scalar. -/
def concernsAppend (cur : List Val) (v : Val) : List Val :=
  match v with
  | .vlist l => cur ++ l
  | v => cur ++ [v]

/-- One iteration of the `for key, value in extracted_info.items()` loop
of `update_customer_profile`. -/
def applyInfoItem (c : Customer) (kv : String × Val) : Customer :=
  if kv.1 ∈ propertyKeys then
    { c with property_details := setKey c.property_details kv.1 kv.2 }
  else if kv.1 ∈ loanKeys then
    { c with loan_requirements := setKey c.loan_requirements kv.1 kv.2 }
  else if kv.1 = "name" then
    match c.name with
    | none => { c with name := some kv.2 }
    | some _ => c
  else if kv.1 = "concerns" then
    let newConcerns := Val.vlist (concernsAppend (getConcernsList c.loan_requirements) kv.2)
    { c with loan_requirements := setKey c.loan_requirements "concerns" newConcerns }
  else c

/-- The interest-level nudge of `update_customer_profile`: delta by
intent, clamped immediately. -/
def updateInterest (intent : String) (x : ℚ) : ℚ :=
  if intent = "interested" then min 1 (x + 2/10)
  else if intent = "needs_more_info" then min (8/10) (x + 1/10)
  else if intent = "objection" then max (1/10) (x - 1/10)
  else if intent = "not_interested" then max 0 (x - 3/10)
  else x

/-- `update_customer_profile(customer, extracted_info, intent, state)`:
route extracted fields into the two maps (with `name` set-once and
`concerns` accumulated), overwrite `conversation_state`, nudge
`interest_level`, and flip `do_not_contact` on a truthy extracted flag. -/
def update_customer_profile (c : Customer) (extracted_info : List (String × Val))
    (intent state : String) : Customer :=
  let c1 := extracted_info.foldl applyInfoItem c
  let c2 := { c1 with
    conversation_state := state
    interest_level := updateInterest intent c1.interest_level }
  match getKey extracted_info "do_not_contact" with
  | some v => if v.truthy then { c2 with do_not_contact := true } else c2
  | none => c2

/-! ## `ConversationEngine.generate_response` -/

/-- Lowercase a string (Python `str.lower`). -/
def lowerString (s : String) : String :=
  String.mk (s.toList.map Char.toLower)

/-- `ConversationEngine._should_generate_audio`. -/
def shouldGenerateAudio (response_text state : String) : Bool :=
  if response_text.length > 300 then true
  else if state ∈ ["objection_handling", "closing", "not_interested"] then true
  else if state ∈ ["loan_details"] &&
      (["interest rate", "emi", "tenure", "processing fee"].any
        (fun term => strContains term (lowerString response_text))) then true
  else false

/-- `ConversationEngine._calculate_follow_up_date`. -/
def calculateFollowUpDate (intent state : String) : Option String :=
  if intent = "follow_up_later" then some "7d"
  else if state = "follow_up_scheduling" then some "14d"
  else if state = "not_interested" then some "90d"
  else if state = "objection_handling" then some "21d"
  else if state = "loan_details" ∧ intent ≠ "interested" then some "30d"
  else none

/-- Is an extracted value `None`, `""` or `[]` (skipped by the cleaner)? -/
def isEmptyVal : Val → Bool
  | .vnull => true
  | .vstr s => s == ""
  | .vlist l => l.isEmpty
  | _ => false

/-- The clean-up loop of `extract_information`: drop empty values and
normalize textual `property_value` / `loan_amount_needed` through the
currency converter. -/
def cleanInfo : List (String × Val) → List (String × Val)
  | [] => []
  | (k, v) :: rest =>
      if isEmptyVal v then cleanInfo rest
      else
        let v2 :=
          if k = "property_value" ∨ k = "loan_amount_needed" then
            match v with
            | .vstr s => Val.vnum (convertIndianCurrencyToNumber s)
            | w => w
          else v
        (k, v2) :: cleanInfo rest

/-- `ConversationEngine.extract_information`, as a function of the
outcome of the extraction call (`Except.error` models both a raised
exception and malformed JSON, each of which yields `{}`). -/
def extract_information (result : Except String (List (String × Val))) :
    List (String × Val) :=
  match result with
  | .error _ => []
  | .ok info => cleanInfo info

/-- The customer profile dictionary as read by `generate_response`; only
`conversation_state` feeds the returned fields (`none` models a dict
without the key, for which `.get` falls back to `"initial"`).  The other
profile entries are only interpolated into the LLM prompt, whose outcome
is a separate input. -/
structure Profile where
  conversation_state : Option String

/-- Outcomes of the three LLM calls made while generating a response;
`Except.error` models a raised exception. -/
structure LlmEnv where
  classifier : Except String ClassifierReply
  extractor : Except String (List (String × Val))
  generator : Except String String

/-- The response dictionary built by `generate_response`. -/
structure Response where
  text : String
  state : String
  previous_state : String
  intent : String
  confidence : ℚ
  extracted_info : List (String × Val)
  should_generate_audio : Bool
  follow_up_date : Option String
  analysis : List (String × Val)

/-- The static apology text of the generation-failure fallback. -/
def apologyText : String :=
  "I apologize, but I\x27m having trouble processing your request at the moment. Could you please try again or contact our customer service for assistance?"

/-- `ConversationEngine.generate_response`: read the current state,
detect intent, extract information, compute the new state from the
transition table, and build the response dictionary; when the generation
call raises, fall back to the apology response that keeps the current
state and carries `analysis = {error, fallback: true}`. -/
def generate_response (message : String) (profile : Profile)
    (_history : List (Bool × String)) (env : LlmEnv) : Response :=
  let current_state := profile.conversation_state.getD "initial"
  let intentConf := detect_intent env.classifier
  let extracted_info := extract_information env.extractor
  let new_state := updateState current_state intentConf.1
  match env.generator with
  | .ok raw =>
      let response_text := String.mk (stripChars raw.toList)
      { text := response_text
        state := new_state
        previous_state := current_state
        intent := intentConf.1
        confidence := intentConf.2
        extracted_info := extracted_info
        should_generate_audio := shouldGenerateAudio response_text new_state
        follow_up_date := calculateFollowUpDate intentConf.1 new_state
        analysis := [("message_length", .vnum message.length),
                     ("response_length", .vnum response_text.length),
                     ("state_changed", .vbool (new_state != current_state))] }
  | .error e =>
      { text := apologyText
        state := current_state
        previous_state := current_state
        intent := intentConf.1
        confidence := 1/2
        extracted_info := []
        should_generate_audio := false
        follow_up_date := none
        analysis := [("error", .vstr e), ("fallback", .vbool true)] }

/-! ## `WhatsAppClient` (`core/whatsapp.py`): rate limit, conversation
window, and the template fallback of `send_text` -/

/-- The mutable counters of a `WhatsAppClient` instance. -/
structure WaState where
  message_counts : List (String × ℕ)
  conversation_windows : List (String × ℚ)
  rate_limit : ℕ
  window_duration : ℚ

/-- The counters as initialized in `WhatsAppClient.__init__`. -/
def initWaState : WaState :=
  { message_counts := []
    conversation_windows := []
    rate_limit := 1000
    window_duration := 24 * 60 * 60 }

/-- An outbound WhatsApp API payload (the body of the POST). -/
inductive WaPayload : Type where
  | textMsg (recipient : String) (body : String)
  | templateMsg (recipient : String) (template_name : String)
      (params : List (String × String))

/-- The environment of one send: current time, current date string, and
the outcome of the HTTP POST for each possible payload. -/
structure SendEnv where
  now : ℚ
  today : String
  api : WaPayload → Except String (List (String × Val))

/-- `WhatsAppClient._check_rate_limit`. -/
def checkRateLimit (st : WaState) (today phone : String) : Bool :=
  decide ((getKey st.message_counts (phone ++ ":" ++ today)).getD 0 < st.rate_limit)

/-- `WhatsAppClient._check_conversation_window`. -/
def checkConversationWindow (st : WaState) (now : ℚ) (phone : String) : Bool :=
  decide (now - (getKey st.conversation_windows phone).getD 0 < st.window_duration)

/-- `WhatsAppClient._update_message_count`. -/
def updateMessageCount (st : WaState) (today phone : String) : WaState :=
  let key := phone ++ ":" ++ today
  { st with message_counts :=
      setKey st.message_counts key ((getKey st.message_counts key).getD 0 + 1) }

/-- `WhatsAppClient._update_conversation_window`. -/
def updateConversationWindow (st : WaState) (now : ℚ) (phone : String) : WaState :=
  { st with conversation_windows := setKey st.conversation_windows phone now }

/-- Result of a send: a parsed API response, an error dictionary
returned without calling the API, or a propagated exception. -/
inductive SendOutcome : Type where
  | response (body : List (String × Val))
  | errorValue (msg : String)
  | raised (msg : String)

/-- `WhatsAppClient.send_template`: rate-limit check (no window check),
POST the template payload, update counters on success. -/
def send_template (st : WaState) (env : SendEnv) (phone template_name : String)
    (params : List (String × String)) : SendOutcome × WaState :=
  if !(checkRateLimit st env.today phone) then
    (SendOutcome.errorValue "Rate limit exceeded", st)
  else
    match env.api (.templateMsg phone template_name params) with
    | .ok body =>
        (SendOutcome.response body,
         updateConversationWindow (updateMessageCount st env.today phone) env.now phone)
    | .error e => (SendOutcome.raised e, st)

/-- `WhatsAppClient.send_text`: rate-limit check, then the conversation
window check — on an expired window the call is redirected to
`send_template` with the original text as the `default_text` parameter —
then the plain-text POST. -/
def send_text (st : WaState) (env : SendEnv) (phone text : String) :
    SendOutcome × WaState :=
  if !(checkRateLimit st env.today phone) then
    (SendOutcome.errorValue "Rate limit exceeded", st)
  else if !(checkConversationWindow st env.now phone) then
    send_template st env phone "loan_follow_up" [("default_text", text)]
  else
    match env.api (.textMsg phone text) with
    | .ok body =>
        (SendOutcome.response body,
         updateConversationWindow (updateMessageCount st env.today phone) env.now phone)
    | .error e => (SendOutcome.raised e, st)

/-! ## Concurrent message processing (`agent/views.py`,
`process_text_message`): read–modify–write on the Customer row -/

/-- The per-message customer mutation distilled from
`process_text_message`: the handler holds a snapshot of the Customer row
and `update_customer_profile` + `customer.save()` writes every field of
that snapshot back. -/
structure MsgTxn where
  extracted_info : List (String × Val)
  intent : String
  state : String

/-- One handler step: either read the row into the handler snapshot, or
write the merged snapshot back (a no-op before the read, as the handler
cannot save before it has loaded the row). -/
inductive Evt : Type where
  | read1 | write1 | read2 | write2

/-- State of the database row plus the two handler snapshots. -/
structure ConcState where
  db : Customer
  snap1 : Option Customer
  snap2 : Option Customer

/-- Interleaving semantics of two concurrent `process_text_message`
executions for the same phone number: each handler reads the row, then
saves `update_customer_profile` of its snapshot, and `save()` overwrites
every field. -/
def stepEvt (t1 t2 : MsgTxn) (s : ConcState) : Evt → ConcState
  | .read1 => { s with snap1 := some s.db }
  | .write1 =>
      match s.snap1 with
      | some c =>
          { s with db := update_customer_profile c t1.extracted_info t1.intent t1.state }
      | none => s
  | .read2 => { s with snap2 := some s.db }
  | .write2 =>
      match s.snap2 with
      | some c =>
          { s with db := update_customer_profile c t2.extracted_info t2.intent t2.state }
      | none => s

/-- The database row after running a schedule of handler steps. -/
def runSchedule (t1 t2 : MsgTxn) (db : Customer) (sched : List Evt) : Customer :=
  (sched.foldl (stepEvt t1 t2) ⟨db, none, none⟩).db

/-! ## Derived data used by the theorems -/

/-- The last value assigned to key `k` by the items of `info` whose key
lies in `keys` (the later the item, the higher the priority). -/
def lastRouted (keys : List String) (info : List (String × Val)) (k : String) :
    Option Val :=
  match info with
  | [] => none
  | kv :: rest =>
      match lastRouted keys rest k with
      | some v => some v
      | none => if kv.1 = k ∧ kv.1 ∈ keys then some kv.2 else none

/-- The first value carried by a `name` item of `info`. -/
def firstNameVal : List (String × Val) → Option Val
  | [] => none
  | kv :: rest => if kv.1 = "name" then some kv.2 else firstNameVal rest

/-- A scalar flattens to a one-element list, a list stays (the
`extend`/`append` dichotomy of the concerns branch). -/
def flattenVal : Val → List Val
  | .vlist l => l
  | v => [v]

/-- The concatenation of all concern values contributed by `info`. -/
def concernsDelta : List (String × Val) → List Val
  | [] => []
  | kv :: rest =>
      (if kv.1 = "concerns" then flattenVal kv.2 else []) ++ concernsDelta rest

/-- Truthiness of the extracted `do_not_contact` flag. -/
def dncFlag (info : List (String × Val)) : Bool :=
  match getKey info "do_not_contact" with
  | some v => v.truthy
  | none => false

/-- A fresh customer row as created by `get_or_create_customer`
(`conversation_state` defaults to `initial`, `interest_level` to 0). -/
def freshCustomer : Customer :=
  { name := none
    property_details := []
    loan_requirements := []
    conversation_state := "initial"
    interest_level := 0
    do_not_contact := false }

/-- A one-item extraction carrying a scalar concern. -/
def oneConcernInfo : List (String × Val) := [("concerns", Val.vstr "rates")]

/-- The customer row of the C9 scenario: mid-funnel, interest 0.5. -/
def c9Row : Customer :=
  { name := none
    property_details := []
    loan_requirements := []
    conversation_state := "qualifying"
    interest_level := 1/2
    do_not_contact := false }

/-- The mutation of one inbound `interested` message in the C9 scenario. -/
def c9Msg : MsgTxn :=
  { extracted_info := []
    intent := "interested"
    state := "property_details" }

/-! ## Lemmas about `setKey` and the merge fold -/

theorem getKey_setKey_same {β : Type} (m : List (String × β)) (k : String) (v : β) :
    getKey (setKey m k v) k = some v := by
  induction m with
  | nil => simp [setKey, getKey]
  | cons kv rest ih =>
      obtain ⟨k0, v0⟩ := kv
      by_cases h : k0 = k
      · subst h
        simp [setKey, getKey]
      · simp [setKey, getKey, h, ih]

theorem getKey_setKey_ne {β : Type} (m : List (String × β)) (j k : String) (v : β)
    (h : j ≠ k) : getKey (setKey m j v) k = getKey m k := by
  induction m with
  | nil => simp [setKey, getKey, h]
  | cons kv rest ih =>
      obtain ⟨k0, v0⟩ := kv
      by_cases h0 : k0 = j
      · subst h0
        simp [setKey, getKey, h]
      · simp [setKey, getKey, h0, ih]

theorem concernsAppend_eq (cur : List Val) (v : Val) :
    concernsAppend cur v = cur ++ flattenVal v := by
  cases v <;> rfl

theorem getConcernsList_setKey_ne (m : List (String × Val)) (j : String) (v : Val)
    (h : j ≠ "concerns") : getConcernsList (setKey m j v) = getConcernsList m := by
  unfold getConcernsList
  rw [getKey_setKey_ne m j "concerns" v h]

theorem getConcernsList_setKey_same (m : List (String × Val)) (l : List Val) :
    getConcernsList (setKey m "concerns" (Val.vlist l)) = l := by
  unfold getConcernsList
  rw [getKey_setKey_same]

theorem mem_propertyKeys_ne {s : String} (h : s ∈ propertyKeys) :
    s ≠ "name" ∧ s ≠ "concerns" ∧ s ∉ loanKeys := by
  fin_cases h <;> decide

theorem mem_loanKeys_ne {s : String} (h : s ∈ loanKeys) :
    s ≠ "name" ∧ s ≠ "concerns" ∧ s ∉ propertyKeys := by
  fin_cases h <;> decide

theorem applyInfoItem_pd (c : Customer) (kv : String × Val) :
    (applyInfoItem c kv).property_details =
      if kv.1 ∈ propertyKeys then setKey c.property_details kv.1 kv.2
      else c.property_details := by
  unfold applyInfoItem
  repeat' split
  all_goals simp_all

theorem applyInfoItem_lr (c : Customer) (kv : String × Val) :
    (applyInfoItem c kv).loan_requirements =
      if kv.1 ∈ propertyKeys then c.loan_requirements
      else if kv.1 ∈ loanKeys then setKey c.loan_requirements kv.1 kv.2
      else if kv.1 = "concerns" then
        setKey c.loan_requirements "concerns"
          (Val.vlist (concernsAppend (getConcernsList c.loan_requirements) kv.2))
      else c.loan_requirements := by
  unfold applyInfoItem
  repeat' split
  all_goals simp_all

theorem applyInfoItem_name (c : Customer) (kv : String × Val) :
    (applyInfoItem c kv).name =
      if kv.1 = "name" then some (c.name.getD kv.2) else c.name := by
  unfold applyInfoItem
  by_cases h1 : kv.1 ∈ propertyKeys
  · simp [h1, (mem_propertyKeys_ne h1).1]
  · by_cases h2 : kv.1 ∈ loanKeys
    · simp [h1, h2, (mem_loanKeys_ne h2).1]
    · by_cases h3 : kv.1 = "name"
      · simp only [h1, h2, h3, if_true, if_false]
        cases hn : c.name <;> simp +decide [hn]
      · by_cases h4 : kv.1 = "concerns" <;> simp +decide [h1, h2, h3, h4]

theorem applyInfoItem_state (c : Customer) (kv : String × Val) :
    (applyInfoItem c kv).conversation_state = c.conversation_state := by
  unfold applyInfoItem
  repeat' split
  all_goals rfl

theorem applyInfoItem_interest (c : Customer) (kv : String × Val) :
    (applyInfoItem c kv).interest_level = c.interest_level := by
  unfold applyInfoItem
  repeat' split
  all_goals rfl

theorem applyInfoItem_dnc (c : Customer) (kv : String × Val) :
    (applyInfoItem c kv).do_not_contact = c.do_not_contact := by
  unfold applyInfoItem
  repeat' split
  all_goals rfl

theorem foldl_state (info : List (String × Val)) (c : Customer) :
    (info.foldl applyInfoItem c).conversation_state = c.conversation_state := by
  induction info generalizing c with
  | nil => rfl
  | cons kv rest ih => rw [List.foldl_cons, ih, applyInfoItem_state]

theorem foldl_interest (info : List (String × Val)) (c : Customer) :
    (info.foldl applyInfoItem c).interest_level = c.interest_level := by
  induction info generalizing c with
  | nil => rfl
  | cons kv rest ih => rw [List.foldl_cons, ih, applyInfoItem_interest]

theorem foldl_dnc (info : List (String × Val)) (c : Customer) :
    (info.foldl applyInfoItem c).do_not_contact = c.do_not_contact := by
  induction info generalizing c with
  | nil => rfl
  | cons kv rest ih => rw [List.foldl_cons, ih, applyInfoItem_dnc]

theorem foldl_pd_getKey (info : List (String × Val)) (c : Customer) (k : String) :
    getKey (info.foldl applyInfoItem c).property_details k =
      match lastRouted propertyKeys info k with
      | some v => some v
      | none => getKey c.property_details k := by
  induction info generalizing c with
  | nil => rfl
  | cons kv rest ih =>
      rw [List.foldl_cons, ih]
      cases h : lastRouted propertyKeys rest k with
      | some v => simp [lastRouted, h]
      | none =>
          simp only [lastRouted, h]
          rw [applyInfoItem_pd]
          by_cases h1 : kv.1 ∈ propertyKeys
          · by_cases he : kv.1 = k
            · subst he
              simp [h1, getKey_setKey_same]
            · simp [h1, he, getKey_setKey_ne _ _ _ _ he]
          · simp [h1]

theorem foldl_lr_getKey (info : List (String × Val)) (c : Customer) (k : String)
    (hk : k ≠ "concerns") :
    getKey (info.foldl applyInfoItem c).loan_requirements k =
      match lastRouted loanKeys info k with
      | some v => some v
      | none => getKey c.loan_requirements k := by
  induction info generalizing c with
  | nil => rfl
  | cons kv rest ih =>
      rw [List.foldl_cons, ih]
      cases h : lastRouted loanKeys rest k with
      | some v => simp [lastRouted, h]
      | none =>
          simp only [lastRouted, h]
          rw [applyInfoItem_lr]
          by_cases h1 : kv.1 ∈ propertyKeys
          · simp [h1, (mem_propertyKeys_ne h1).2.2]
          · by_cases h2 : kv.1 ∈ loanKeys
            · by_cases he : kv.1 = k
              · subst he
                simp [h1, h2, getKey_setKey_same]
              · simp [h1, h2, he, getKey_setKey_ne _ _ _ _ he]
            · by_cases h3 : kv.1 = "concerns"
              · simp +decide [h1, h2, h3, getKey_setKey_ne _ _ _ _ (Ne.symm hk)]
              · simp [h1, h2, h3]

theorem foldl_concerns (info : List (String × Val)) (c : Customer) :
    getConcernsList (info.foldl applyInfoItem c).loan_requirements =
      getConcernsList c.loan_requirements ++ concernsDelta info := by
  induction info generalizing c with
  | nil => simp [concernsDelta]
  | cons kv rest ih =>
      rw [List.foldl_cons, ih, applyInfoItem_lr]
      by_cases h1 : kv.1 ∈ propertyKeys
      · simp [concernsDelta, h1, (mem_propertyKeys_ne h1).2.1]
      · by_cases h2 : kv.1 ∈ loanKeys
        · simp [concernsDelta, h1, h2, (mem_loanKeys_ne h2).2.1,
            getConcernsList_setKey_ne _ _ _ (mem_loanKeys_ne h2).2.1]
        · by_cases h3 : kv.1 = "concerns"
          · simp +decide [h3, concernsDelta, concernsAppend_eq,
              getConcernsList_setKey_same, List.append_assoc]
          · simp [concernsDelta, h1, h2, h3]

theorem foldl_name (info : List (String × Val)) (c : Customer) :
    (info.foldl applyInfoItem c).name =
      match c.name with
      | some v => some v
      | none => firstNameVal info := by
  induction info generalizing c with
  | nil => cases hn : c.name <;> simp [hn, firstNameVal]
  | cons kv rest ih =>
      rw [List.foldl_cons, ih, applyInfoItem_name]
      by_cases h : kv.1 = "name"
      · cases hn : c.name <;> simp [h, hn, firstNameVal]
      · cases hn : c.name <;> simp [h, hn, firstNameVal]

theorem ucp_pd (c : Customer) (info : List (String × Val)) (intent state : String) :
    (update_customer_profile c info intent state).property_details =
      (info.foldl applyInfoItem c).property_details := by
  simp only [update_customer_profile]
  cases h : getKey info "do_not_contact" with
  | none => simp [h]
  | some v => by_cases hv : v.truthy <;> simp [h, hv]

theorem ucp_lr (c : Customer) (info : List (String × Val)) (intent state : String) :
    (update_customer_profile c info intent state).loan_requirements =
      (info.foldl applyInfoItem c).loan_requirements := by
  simp only [update_customer_profile]
  cases h : getKey info "do_not_contact" with
  | none => simp [h]
  | some v => by_cases hv : v.truthy <;> simp [h, hv]

theorem ucp_name (c : Customer) (info : List (String × Val)) (intent state : String) :
    (update_customer_profile c info intent state).name =
      (info.foldl applyInfoItem c).name := by
  simp only [update_customer_profile]
  cases h : getKey info "do_not_contact" with
  | none => simp [h]
  | some v => by_cases hv : v.truthy <;> simp [h, hv]

theorem ucp_state (c : Customer) (info : List (String × Val)) (intent state : String) :
    (update_customer_profile c info intent state).conversation_state = state := by
  simp only [update_customer_profile]
  cases h : getKey info "do_not_contact" with
  | none => simp [h]
  | some v => by_cases hv : v.truthy <;> simp [h, hv]

theorem ucp_interest (c : Customer) (info : List (String × Val)) (intent state : String) :
    (update_customer_profile c info intent state).interest_level =
      updateInterest intent c.interest_level := by
  simp only [update_customer_profile]
  cases h : getKey info "do_not_contact" with
  | none => simp [h, foldl_interest]
  | some v => by_cases hv : v.truthy <;> simp [h, hv, foldl_interest]

theorem ucp_dnc (c : Customer) (info : List (String × Val)) (intent state : String) :
    (update_customer_profile c info intent state).do_not_contact =
      (c.do_not_contact || dncFlag info) := by
  simp only [update_customer_profile, dncFlag]
  cases h : getKey info "do_not_contact" with
  | none => simp [h, foldl_dnc]
  | some v => by_cases hv : v.truthy <;> simp [h, hv, foldl_dnc]

/-- Helper: every output of the intent-normalization chain lies in the
six-member intent set. -/
theorem normalizeIntent_mem (s : String) : normalizeIntent s ∈ allIntents := by
  unfold normalizeIntent
  repeat' split
  all_goals simp_all [allIntents]

/-- C1 counterexample: the claim fails at the non-terminal state
`initial` with intent `objection` — the table has no such entry, so the
intent does not map to `objection_handling` (the state is left
unchanged). -/
theorem c1_table_counterexample :
    "initial" ∈ nonTerminalStates ∧
    getKey (transitionsFor "initial") "objection" = none ∧
    updateState "initial" "objection" = "initial" ∧
    ¬ getKey (transitionsFor "initial") "objection" = some "objection_handling" := by
  decide

/-- C1 (amended): every non-terminal state maps `interested` to its next
funnel stage and `not_interested` to `not_interested`; `objection` maps
to `objection_handling` in every non-terminal state except `initial` and
`follow_up_scheduling`, which have no `objection` entry; and
`follow_up_later` maps to `follow_up_scheduling` in `qualifying`,
`property_details`, `loan_details`, `objection_handling` and `closing`
only, the entry being absent from `initial`, `introduction` and
`follow_up_scheduling`. -/
theorem c1_amended_transition_table :
    (∀ s ∈ nonTerminalStates,
      getKey (transitionsFor s) "not_interested" = some "not_interested") ∧
    getKey (transitionsFor "initial") "interested" = some "introduction" ∧
    getKey (transitionsFor "introduction") "interested" = some "qualifying" ∧
    getKey (transitionsFor "qualifying") "interested" = some "property_details" ∧
    getKey (transitionsFor "property_details") "interested" = some "loan_details" ∧
    getKey (transitionsFor "loan_details") "interested" = some "closing" ∧
    getKey (transitionsFor "objection_handling") "interested" = some "loan_details" ∧
    getKey (transitionsFor "closing") "interested" = some "completed" ∧
    getKey (transitionsFor "follow_up_scheduling") "interested" = some "loan_details" ∧
    (∀ s ∈ ["introduction", "qualifying", "property_details", "loan_details",
            "objection_handling", "closing"],
      getKey (transitionsFor s) "objection" = some "objection_handling") ∧
    getKey (transitionsFor "initial") "objection" = none ∧
    getKey (transitionsFor "follow_up_scheduling") "objection" = none ∧
    (∀ s ∈ ["qualifying", "property_details", "loan_details",
            "objection_handling", "closing"],
      getKey (transitionsFor s) "follow_up_later" = some "follow_up_scheduling") ∧
    (∀ s ∈ ["initial", "introduction", "follow_up_scheduling"],
      getKey (transitionsFor s) "follow_up_later" = none) := by
  decide

/-- C4: a `(state, intent)` pair with no entry in the transition table
leaves the state unchanged, and a state absent from the table altogether
also keeps every intent at the same state. -/
theorem c4_unmapped_transition_stays :
    (∀ s i, getKey (transitionsFor s) i = none → updateState s i = s) ∧
    (∀ s i, getKey state_transitions s = none → updateState s i = s) := by
  constructor
  · intro s i h
    simp [updateState, h]
  · intro s i h
    unfold updateState transitionsFor
    rw [h]
    simp [getKey]

/-- C4 witness: an unmapped intent at a mapped state, and an intent at a
state missing from the table. -/
theorem c4_unmapped_transition_stays_witness :
    getKey (transitionsFor "initial") "follow_up_later" = none ∧
    updateState "initial" "follow_up_later" = "initial" ∧
    getKey state_transitions "archived" = none ∧
    updateState "archived" "interested" = "archived" :=
  ⟨by decide, c4_unmapped_transition_stays.1 "initial" "follow_up_later" (by decide),
   by decide, c4_unmapped_transition_stays.2 "archived" "interested" (by decide)⟩

/-- C10: `detect_intent` always yields one of the six defined intents:
the normalization chain lands in the set and the exception path returns
`needs_more_info`. -/
theorem c10_intent_always_defined (result : Except String ClassifierReply) :
    (detect_intent result).1 ∈ allIntents := by
  cases result with
  | error e => simp +decide [detect_intent]
  | ok r =>
      simp only [detect_intent]
      exact normalizeIntent_mem _

/-- C2 counterexample: the claim promises `interest_level ∈ [0, 1]` after
one update regardless of the starting value, but from the out-of-range
start `-1` the `interested` update lands at `-0.8`, outside `[0, 1]`
(the clamp is one-sided per intent). -/
theorem c2_out_of_range_counterexample :
    updateInterest "interested" (-1) = -(4/5) ∧
    ¬ (0 ≤ updateInterest "interested" (-1) ∧ updateInterest "interested" (-1) ≤ 1) := by
  have h : updateInterest "interested" (-1) = min 1 ((-1) + 2/10) := by
    simp +decide [updateInterest]
  rw [h]
  constructor
  · norm_num [min_def]
  · norm_num [min_def]

/-- C2 (amended): from any starting value already in `[0, 1]`, a single
application of each defined intent delta keeps `interest_level` in
`[0, 1]`, and the update applies exactly the stated delta-with-clamp
formula (`interested` +0.2 cap 1.0, `needs_more_info` +0.1 cap 0.8,
`objection` −0.1 floor 0.1, `not_interested` −0.3 floor 0.0). -/
theorem c2_interest_clamped (intent : String) (x : ℚ) (h0 : 0 ≤ x) (h1 : x ≤ 1) :
    (0 ≤ updateInterest intent x ∧ updateInterest intent x ≤ 1) ∧
    updateInterest "interested" x = min 1 (x + 2/10) ∧
    updateInterest "needs_more_info" x = min (8/10) (x + 1/10) ∧
    updateInterest "objection" x = max (1/10) (x - 1/10) ∧
    updateInterest "not_interested" x = max 0 (x - 3/10) := by
  refine ⟨?_, by simp +decide [updateInterest], by simp +decide [updateInterest],
    by simp +decide [updateInterest], by simp +decide [updateInterest]⟩
  unfold updateInterest
  repeat' split
  · exact ⟨le_min (by norm_num) (by linarith), min_le_left _ _⟩
  · exact ⟨le_min (by norm_num) (by linarith), le_trans (min_le_left _ _) (by norm_num)⟩
  · exact ⟨le_trans (by norm_num) (le_max_left _ _), max_le (by norm_num) (by linarith)⟩
  · exact ⟨le_max_left _ _, max_le (by norm_num) (by linarith)⟩
  · exact ⟨h0, h1⟩

/-- C2 witness: the amended bound and the formulas at intent `objection`
from `interest_level = 1/2`. -/
theorem c2_interest_clamped_witness :
    (0 : ℚ) ≤ 1/2 ∧ (1/2 : ℚ) ≤ 1 ∧
    ((0 ≤ updateInterest "objection" (1/2) ∧ updateInterest "objection" (1/2) ≤ 1) ∧
     updateInterest "interested" (1/2) = min 1 ((1/2) + 2/10) ∧
     updateInterest "needs_more_info" (1/2) = min (8/10) ((1/2) + 1/10) ∧
     updateInterest "objection" (1/2) = max (1/10) ((1/2) - 1/10) ∧
     updateInterest "not_interested" (1/2) = max 0 ((1/2) - 3/10)) :=
  ⟨by norm_num, by norm_num,
   c2_interest_clamped "objection" (1/2) (by norm_num) (by norm_num)⟩

/-- C5: when the intent-classification call raises, `detect_intent`
returns exactly `("needs_more_info", 0.5)`, and `generate_response`
still produces a response whose intent is `needs_more_info` with
confidence `0.5`, for every message, profile, history and outcome of
the other two calls. -/
theorem c5_classifier_failure_degrades (message : String) (profile : Profile)
    (history : List (Bool × String)) (e : String)
    (extractorR : Except String (List (String × Val)))
    (generatorR : Except String String) :
    detect_intent (Except.error e) = ("needs_more_info", 1/2) ∧
    (generate_response message profile history
        ⟨Except.error e, extractorR, generatorR⟩).intent = "needs_more_info" ∧
    (generate_response message profile history
        ⟨Except.error e, extractorR, generatorR⟩).confidence = 1/2 := by
  refine ⟨rfl, ?_, ?_⟩ <;> cases generatorR <;> rfl

/-- C6: when the reply-generation call raises, the response carries the
static apology text, keeps the customer's current state (the computed
new state is not applied), and its analysis map has `fallback = true` —
for every message, profile, history and outcome of the other calls. -/
theorem c6_generation_failure_fallback (message : String) (profile : Profile)
    (history : List (Bool × String)) (classifierR : Except String ClassifierReply)
    (extractorR : Except String (List (String × Val))) (e : String) :
    (generate_response message profile history
        ⟨classifierR, extractorR, Except.error e⟩).text = apologyText ∧
    (generate_response message profile history
        ⟨classifierR, extractorR, Except.error e⟩).state
      = profile.conversation_state.getD "initial" ∧
    (generate_response message profile history
        ⟨classifierR, extractorR, Except.error e⟩).state
      = (generate_response message profile history
          ⟨classifierR, extractorR, Except.error e⟩).previous_state ∧
    getKey (generate_response message profile history
        ⟨classifierR, extractorR, Except.error e⟩).analysis "fallback"
      = some (Val.vbool true) := by
  refine ⟨rfl, rfl, rfl, ?_⟩
  simp +decide [generate_response, getKey]

/-- C7: the currency normalizer, characterized: the string is lowered
and stripped; with no numeric token the result is 0; with a token, the
value is scaled by the first recognized multiplier substring
(lakh/lac ×100000, crore/cr ×10000000, k/thousand ×1000, none ×1); and
the five concrete conversions from the specification hold. -/
theorem c7_currency_conversion :
    (∀ s : String, convertIndianCurrencyToNumber s
        = convertChars (stripChars (s.toList.map Char.toLower))) ∧
    (∀ v : List Char, findToken v = none → convertChars v = 0) ∧
    (∀ (v : List Char) (t : List Char × List Char), findToken v = some t →
      (containsSub "lakh".toList v || containsSub "lac".toList v) = true →
      convertChars v = tokenValue t * 100000) ∧
    (∀ (v : List Char) (t : List Char × List Char), findToken v = some t →
      (containsSub "lakh".toList v || containsSub "lac".toList v) = false →
      (containsSub "crore".toList v || containsSub "cr".toList v) = true →
      convertChars v = tokenValue t * 10000000) ∧
    (∀ (v : List Char) (t : List Char × List Char), findToken v = some t →
      (containsSub "lakh".toList v || containsSub "lac".toList v) = false →
      (containsSub "crore".toList v || containsSub "cr".toList v) = false →
      (containsSub "k".toList v || containsSub "thousand".toList v) = true →
      convertChars v = tokenValue t * 1000) ∧
    (∀ (v : List Char) (t : List Char × List Char), findToken v = some t →
      (containsSub "lakh".toList v || containsSub "lac".toList v) = false →
      (containsSub "crore".toList v || containsSub "cr".toList v) = false →
      (containsSub "k".toList v || containsSub "thousand".toList v) = false →
      convertChars v = tokenValue t) ∧
    convertIndianCurrencyToNumber "80 lakhs" = 8000000 ∧
    convertIndianCurrencyToNumber "1.5 crores" = 15000000 ∧
    convertIndianCurrencyToNumber "50k" = 50000 ∧
    convertIndianCurrencyToNumber "200" = 200 ∧
    convertIndianCurrencyToNumber "N/A" = 0 := by
  refine ⟨fun s => rfl, ?_, ?_, ?_, ?_, ?_, ?_, ?_, ?_, ?_, ?_⟩
  · intro v h
    simp [convertChars, h]
  · intro v t h h1
    have h1a : containsSub ['l', 'a', 'k', 'h'] v = true
        ∨ containsSub ['l', 'a', 'c'] v = true := by simpa using h1
    rcases h1a with ha | ha <;> simp [convertChars, h, ha]
  · intro v t h h1 h2
    have h1a : containsSub ['l', 'a', 'k', 'h'] v = false
        ∧ containsSub ['l', 'a', 'c'] v = false := by simpa using h1
    have h2a : containsSub ['c', 'r', 'o', 'r', 'e'] v = true
        ∨ containsSub ['c', 'r'] v = true := by simpa using h2
    rcases h2a with hc | hc <;> simp [convertChars, h, h1a.1, h1a.2, hc]
  · intro v t h h1 h2 h3
    have h1a : containsSub ['l', 'a', 'k', 'h'] v = false
        ∧ containsSub ['l', 'a', 'c'] v = false := by simpa using h1
    have h2a : containsSub ['c', 'r', 'o', 'r', 'e'] v = false
        ∧ containsSub ['c', 'r'] v = false := by simpa using h2
    have h3a : containsSub ['k'] v = true
        ∨ containsSub ['t', 'h', 'o', 'u', 's', 'a', 'n', 'd'] v = true := by
      simpa using h3
    rcases h3a with he | he <;>
      simp [convertChars, h, h1a.1, h1a.2, h2a.1, h2a.2, he]
  · intro v t h h1 h2 h3
    have h1a : containsSub ['l', 'a', 'k', 'h'] v = false
        ∧ containsSub ['l', 'a', 'c'] v = false := by simpa using h1
    have h2a : containsSub ['c', 'r', 'o', 'r', 'e'] v = false
        ∧ containsSub ['c', 'r'] v = false := by simpa using h2
    have h3a : containsSub ['k'] v = false
        ∧ containsSub ['t', 'h', 'o', 'u', 's', 'a', 'n', 'd'] v = false := by
      simpa using h3
    simp [convertChars, h, h1a.1, h1a.2, h2a.1, h2a.2, h3a.1, h3a.2]
  · show convertChars (stripChars ("80 lakhs".toList.map Char.toLower)) = 8000000
    have hv : stripChars ("80 lakhs".toList.map Char.toLower)
        = ['8', '0', ' ', 'l', 'a', 'k', 'h', 's'] := by decide
    have ht : findToken ['8', '0', ' ', 'l', 'a', 'k', 'h', 's']
        = some (['8', '0'], []) := by decide
    rw [hv]
    simp +decide only [convertChars, ht]
    have h8 : digitsToNat ['8', '0'] = 80 := by decide
    have h0 : digitsToNat ([] : List Char) = 0 := by decide
    simp only [tokenValue, h8, h0]
    norm_num
  · show convertChars (stripChars ("1.5 crores".toList.map Char.toLower)) = 15000000
    have hv : stripChars ("1.5 crores".toList.map Char.toLower)
        = ['1', '.', '5', ' ', 'c', 'r', 'o', 'r', 'e', 's'] := by decide
    have ht : findToken ['1', '.', '5', ' ', 'c', 'r', 'o', 'r', 'e', 's']
        = some (['1'], ['5']) := by decide
    rw [hv]
    simp +decide only [convertChars, ht]
    have ha : digitsToNat ['1'] = 1 := by decide
    have hb : digitsToNat ['5'] = 5 := by decide
    simp only [tokenValue, ha, hb]
    norm_num
  · show convertChars (stripChars ("50k".toList.map Char.toLower)) = 50000
    have hv : stripChars ("50k".toList.map Char.toLower) = ['5', '0', 'k'] := by decide
    have ht : findToken ['5', '0', 'k'] = some (['5', '0'], []) := by decide
    rw [hv]
    simp +decide only [convertChars, ht]
    have ha : digitsToNat ['5', '0'] = 50 := by decide
    have h0 : digitsToNat ([] : List Char) = 0 := by decide
    simp only [tokenValue, ha, h0]
    norm_num
  · show convertChars (stripChars ("200".toList.map Char.toLower)) = 200
    have hv : stripChars ("200".toList.map Char.toLower) = ['2', '0', '0'] := by decide
    have ht : findToken ['2', '0', '0'] = some (['2', '0', '0'], []) := by decide
    rw [hv]
    simp +decide only [convertChars, ht]
    have ha : digitsToNat ['2', '0', '0'] = 200 := by decide
    have h0 : digitsToNat ([] : List Char) = 0 := by decide
    simp only [tokenValue, ha, h0]
    norm_num
  · show convertChars (stripChars ("N/A".toList.map Char.toLower)) = 0
    have hv : stripChars ("N/A".toList.map Char.toLower) = ['n', '/', 'a'] := by decide
    have ht : findToken ['n', '/', 'a'] = none := by decide
    rw [hv]
    simp [convertChars, ht]

/-- C7 witness: the characterization applied at concrete inputs — a
digit-free string converts to 0 and `42k` scales by 1000. -/
theorem c7_currency_conversion_witness :
    findToken "no digits".toList = none ∧
    convertChars "no digits".toList = 0 ∧
    findToken ['4', '2', 'k'] = some (['4', '2'], []) ∧
    convertChars ['4', '2', 'k'] = tokenValue (['4', '2'], []) * 1000 :=
  ⟨by decide, c7_currency_conversion.2.1 "no digits".toList (by decide),
   by decide,
   c7_currency_conversion.2.2.2.2.1 ['4', '2', 'k'] (['4', '2'], [])
     (by decide) (by decide) (by decide) (by decide)⟩

/-- C8: with the daily rate limit not exceeded and the 24-hour
conversation window expired, `send_text` does not post a plain text
message: it returns exactly the result of `send_template` called with
the `loan_follow_up` template and the original text as the
`default_text` parameter. -/
theorem c8_expired_window_uses_template (st : WaState) (env : SendEnv)
    (phone text : String)
    (hrate : checkRateLimit st env.today phone = true)
    (hwin : checkConversationWindow st env.now phone = false) :
    send_text st env phone text
      = send_template st env phone "loan_follow_up" [("default_text", text)] := by
  unfold send_text
  rw [hrate, hwin]
  simp

/-- C8 witness: a fresh client state whose window (start 0) has expired
at time 100000 and whose daily counter is below the limit. -/
theorem c8_expired_window_uses_template_witness :
    checkRateLimit initWaState "2026-02-03" "919876543210" = true ∧
    checkConversationWindow initWaState 100000 "919876543210" = false ∧
    send_text initWaState ⟨100000, "2026-02-03", fun _ => Except.ok []⟩
        "919876543210" "hello again"
      = send_template initWaState ⟨100000, "2026-02-03", fun _ => Except.ok []⟩
          "919876543210" "loan_follow_up" [("default_text", "hello again")] := by
  have h1 : checkRateLimit initWaState "2026-02-03" "919876543210" = true := by decide
  have h2 : checkConversationWindow initWaState 100000 "919876543210" = false := by
    unfold checkConversationWindow initWaState
    simp only [getKey, Option.getD_none, decide_eq_false_iff_not, not_lt]
    norm_num
  exact ⟨h1, h2,
    c8_expired_window_uses_template initWaState
      ⟨100000, "2026-02-03", fun _ => Except.ok []⟩ "919876543210" "hello again" h1 h2⟩

/-- C3 counterexample: applying the merge twice with the same arguments
does not give the same record as applying it once with `concerns` as the
only exception — `interest_level` also differs (0.2 then 0.4 from 0,
intent `interested`), while `concerns` stays empty here. -/
theorem c3_interest_reapplied_counterexample :
    (update_customer_profile
        (update_customer_profile freshCustomer [] "interested" "qualifying")
        [] "interested" "qualifying").interest_level = 2/5 ∧
    (update_customer_profile freshCustomer [] "interested" "qualifying").interest_level
      = 1/5 ∧
    getConcernsList (update_customer_profile
        (update_customer_profile freshCustomer [] "interested" "qualifying")
        [] "interested" "qualifying").loan_requirements
      = getConcernsList (update_customer_profile freshCustomer []
          "interested" "qualifying").loan_requirements ∧
    (2/5 : ℚ) ≠ 1/5 := by
  have h1 : (update_customer_profile freshCustomer [] "interested"
      "qualifying").interest_level = 1/5 := by
    rw [ucp_interest]
    show updateInterest "interested" 0 = 1/5
    simp +decide only [updateInterest]
    norm_num [min_def]
  refine ⟨?_, h1, ?_, by norm_num⟩
  · rw [ucp_interest, h1]
    simp +decide only [updateInterest]
    norm_num [min_def]
  · rw [ucp_lr]
    rfl

/-- C3 (amended): applying `update_customer_profile` twice with the same
arguments agrees with applying it once on the two profile maps (read
pointwise, as Python dict equality does), on `name`,
`conversation_state` and `do_not_contact` — with two exceptions: the
`concerns` list receives the same contribution again, and
`interest_level` has the intent delta re-applied (with its clamp). -/
theorem c3_merge_idempotent_except (c : Customer) (info : List (String × Val))
    (intent state : String) (_hwf : concernsWellFormed c.loan_requirements)
    (once twice : Customer)
    (honce : once = update_customer_profile c info intent state)
    (htwice : twice = update_customer_profile once info intent state) :
    (∀ k, getKey twice.property_details k = getKey once.property_details k) ∧
    (∀ k, k ≠ "concerns" →
      getKey twice.loan_requirements k = getKey once.loan_requirements k) ∧
    getConcernsList twice.loan_requirements
      = getConcernsList once.loan_requirements ++ concernsDelta info ∧
    twice.name = once.name ∧
    twice.conversation_state = once.conversation_state ∧
    twice.do_not_contact = once.do_not_contact ∧
    twice.interest_level = updateInterest intent once.interest_level := by
  subst honce htwice
  refine ⟨?_, ?_, ?_, ?_, ?_, ?_, ?_⟩
  · intro k
    simp only [ucp_pd, foldl_pd_getKey]
    cases h : lastRouted propertyKeys info k <;> simp [h]
  · intro k hk
    simp only [ucp_lr, foldl_lr_getKey _ _ _ hk]
    cases h : lastRouted loanKeys info k <;> simp [h]
  · rw [ucp_lr, foldl_concerns]
  · simp only [ucp_name, foldl_name]
    cases hn : c.name
    · cases hf : firstNameVal info <;> simp [hn, hf]
    · simp [hn]
  · rw [ucp_state, ucp_state]
  · simp only [ucp_dnc]
    cases c.do_not_contact <;> cases dncFlag info <;> rfl
  · exact ucp_interest _ _ _ _

/-- C3 witness: the amended statement at a fresh customer receiving one
scalar concern with intent `objection`. -/
theorem c3_merge_idempotent_except_witness :
    concernsWellFormed freshCustomer.loan_requirements ∧
    ((∀ k, getKey (update_customer_profile
          (update_customer_profile freshCustomer oneConcernInfo "objection" "qualifying")
          oneConcernInfo "objection" "qualifying").property_details k
        = getKey (update_customer_profile freshCustomer oneConcernInfo
            "objection" "qualifying").property_details k) ∧
     (∀ k, k ≠ "concerns" →
       getKey (update_customer_profile
           (update_customer_profile freshCustomer oneConcernInfo "objection" "qualifying")
           oneConcernInfo "objection" "qualifying").loan_requirements k
         = getKey (update_customer_profile freshCustomer oneConcernInfo
             "objection" "qualifying").loan_requirements k) ∧
     getConcernsList (update_customer_profile
         (update_customer_profile freshCustomer oneConcernInfo "objection" "qualifying")
         oneConcernInfo "objection" "qualifying").loan_requirements
       = getConcernsList (update_customer_profile freshCustomer oneConcernInfo
           "objection" "qualifying").loan_requirements ++ concernsDelta oneConcernInfo ∧
     (update_customer_profile
         (update_customer_profile freshCustomer oneConcernInfo "objection" "qualifying")
         oneConcernInfo "objection" "qualifying").name
       = (update_customer_profile freshCustomer oneConcernInfo
           "objection" "qualifying").name ∧
     (update_customer_profile
         (update_customer_profile freshCustomer oneConcernInfo "objection" "qualifying")
         oneConcernInfo "objection" "qualifying").conversation_state
       = (update_customer_profile freshCustomer oneConcernInfo
           "objection" "qualifying").conversation_state ∧
     (update_customer_profile
         (update_customer_profile freshCustomer oneConcernInfo "objection" "qualifying")
         oneConcernInfo "objection" "qualifying").do_not_contact
       = (update_customer_profile freshCustomer oneConcernInfo
           "objection" "qualifying").do_not_contact ∧
     (update_customer_profile
         (update_customer_profile freshCustomer oneConcernInfo "objection" "qualifying")
         oneConcernInfo "objection" "qualifying").interest_level
       = updateInterest "objection" (update_customer_profile freshCustomer
           oneConcernInfo "objection" "qualifying").interest_level) :=
  ⟨Or.inl rfl,
   c3_merge_idempotent_except freshCustomer oneConcernInfo "objection" "qualifying"
     (Or.inl rfl) _ _ rfl rfl⟩

/-- C9: the handler performs an unsynchronized read–modify–write, so the
interleaving in which both handlers read the row before either saves
loses one `interested` delta (final interest 0.7), whereas the
serialized schedule applies both (0.9) — the claimed serialization does
not hold in the code. -/
theorem c9_lost_update_interleaving :
    (runSchedule c9Msg c9Msg c9Row
        [Evt.read1, Evt.read2, Evt.write1, Evt.write2]).interest_level = 7/10 ∧
    (runSchedule c9Msg c9Msg c9Row
        [Evt.read1, Evt.write1, Evt.read2, Evt.write2]).interest_level = 9/10 ∧
    (7/10 : ℚ) ≠ 9/10 := by
  have hmsg : c9Msg.extracted_info = [] ∧ c9Msg.intent = "interested"
      ∧ c9Msg.state = "property_details" := ⟨rfl, rfl, rfl⟩
  have hstep : updateInterest "interested" (1/2 : ℚ) = 7/10 := by
    simp +decide only [updateInterest]
    norm_num [min_def]
  have hstep2 : updateInterest "interested" (7/10 : ℚ) = 9/10 := by
    simp +decide only [updateInterest]
    norm_num [min_def]
  refine ⟨?_, ?_, by norm_num⟩
  · show (update_customer_profile c9Row c9Msg.extracted_info c9Msg.intent
        c9Msg.state).interest_level = 7/10
    rw [ucp_interest, hmsg.2.1]
    show updateInterest "interested" (1/2) = 7/10
    exact hstep
  · show (update_customer_profile
        (update_customer_profile c9Row c9Msg.extracted_info c9Msg.intent c9Msg.state)
        c9Msg.extracted_info c9Msg.intent c9Msg.state).interest_level = 9/10
    rw [ucp_interest, ucp_interest, hmsg.2.1]
    show updateInterest "interested" (updateInterest "interested" (1/2)) = 9/10
    rw [hstep, hstep2]

end LoanAgent
